import Mathlib

/-!
Shallow embedding of the sales-dashboard pipeline of `src/main.py`:
column validation, numeric and date coercion, derived columns
(total / discount / final amounts, value category, delivery flags),
the sidebar filters, and the KPI aggregates, together with theorems
settling the specification claims about them.

Conventions of the embedding:
* a pandas NaN / NaT produced by a failed coercion, and a missing cell,
  are modelled as `none` of an `Option` type;
* money and numeric cells are `ℚ`; a parsed `Order_Date` is an `Int`
  day number (comparisons at day granularity);
* `safe_calculation`'s wrapped computation is an `Option ℚ`, where
  `none` stands for a raised exception or a NaN/inf result.
-/

namespace SalesDashboard

/-- A raw uploaded row.  In `Order_Date`, `none` models a date that
`pd.to_datetime(..., errors="coerce")` turned into NaT; in the numeric
fields, `none` models a cell `pd.to_numeric(..., errors="coerce")` turned
into NaN; in `Delivery_Days`, `none` models a missing value. -/
structure RawRecord where
  Order_Date : Option Int
  Customer_Name : String
  City : String
  Product_Category : String
  Product_Name : String
  Quantity : Option ℚ
  Unit_Price : Option ℚ
  Discount_Percent : Option ℚ
  Order_Status : String
  Delivery_Days : Option ℚ
deriving DecidableEq

/-- The required column list of `validate_dataframe` (main.py 124-126). -/
def required_cols : List String :=
  ["Order_Date", "Customer_Name", "City", "Product_Category",
   "Product_Name", "Quantity", "Unit_Price", "Discount_Percent",
   "Order_Status", "Delivery_Days"]

/-- Models main.py 128: the list of required columns absent from the frame. -/
def missing_cols (columns : List String) : List String :=
  required_cols.filter (fun c => ! columns.contains c)

/-- Models `validate_dataframe` (main.py 123-133). -/
def validate_dataframe (columns : List String) : Bool × String :=
  let m := missing_cols columns
  if m.isEmpty then (true, "Data validation successful")
  else (false, "Missing required columns: " ++ String.intercalate ", " m)

/-- Models `safe_calculation` (main.py 135-142): the wrapped computation is
an `Option ℚ` whose `none` stands for a raised exception or a NaN or
infinite result; in each of those cases the default is returned. -/
def safe_calculation (result : Option ℚ) (default : ℚ) : ℚ :=
  result.getD default

/-- Models `calculate_growth_rate` (main.py 144-147); `none` models NaN. -/
def calculate_growth_rate (current previous : Option ℚ) : ℚ :=
  match current, previous with
  | some c, some p => if p = 0 then 0 else (c - p) / p * 100
  | _, _ => 0

/-- Models `pd.to_numeric(..., errors=coerce).fillna(0)` (main.py 197-199):
an unparseable cell becomes NaN (`none`) and is then filled with 0. -/
def coerce_numeric (x : Option ℚ) : ℚ := x.getD 0

/-- Models `Series.clip(lo, hi)` (main.py 199). -/
def clip (x lo hi : ℚ) : ℚ := min (max x lo) hi

/-- Models main.py 192-195: strip, collapse internal whitespace, and
title-case the customer name (title-casing modelled word-wise). -/
def clean_customer_name (s : String) : String :=
  String.intercalate " "
    (((s.trim.split (fun c => c.isWhitespace)).filter
      (fun w => ! w.isEmpty)).map (fun w => w.toLower.capitalize))

/-- Models main.py 205-208: the value-category step function. -/
def order_value_category (final : ℚ) : String :=
  if 30000 ≤ final then "High Value"
  else if 10000 ≤ final then "Medium Value"
  else "Low Value"

/-- Models main.py 210-213: the delivery-status recode of the order status. -/
def delivery_status (status : String) : String :=
  if status = "Cancelled" then "Not Delivered"
  else if status = "Returned" then "Returned"
  else "Delivered"

/-- Models main.py 215-218: NA when `Delivery_Days` is missing, otherwise
fast iff at most 3 days. -/
def fast_delivery_flag (days : Option ℚ) : String :=
  match days with
  | none => "NA"
  | some dd => if dd ≤ 3 then "Fast Delivery" else "Normal Delivery"

/-- A derived row after main.py 190-218.  The further temporal columns
(month, quarter, day of week, week) are functions of `Order_Date` not
needed by any claim and are omitted. -/
structure Record where
  Order_Date : Int
  Clean_Customer_Name : String
  City : String
  Product_Category : String
  Product_Name : String
  Quantity : ℚ
  Unit_Price : ℚ
  Discount_Percent : ℚ
  Order_Status : String
  Delivery_Days : Option ℚ
  Total_Amount : ℚ
  Discount_Amount : ℚ
  Final_Sales_Amount : ℚ
  Order_Value_Category : String
  Delivery_Status : String
  Fast_Delivery_Flag : String
deriving DecidableEq

/-- Models main.py 192-218: the derived columns of one row whose
`Order_Date` parsed to the day number `d`. -/
def derive_record (r : RawRecord) (d : Int) : Record :=
  let q := coerce_numeric r.Quantity
  let p := coerce_numeric r.Unit_Price
  let disc := clip (coerce_numeric r.Discount_Percent) 0 100
  let total := q * p
  let discAmount := total * disc / 100
  { Order_Date := d
    Clean_Customer_Name := clean_customer_name r.Customer_Name
    City := r.City
    Product_Category := r.Product_Category
    Product_Name := r.Product_Name
    Quantity := q
    Unit_Price := p
    Discount_Percent := disc
    Order_Status := r.Order_Status
    Delivery_Days := r.Delivery_Days
    Total_Amount := total
    Discount_Amount := discAmount
    Final_Sales_Amount := total - discAmount
    Order_Value_Category := order_value_category (total - discAmount)
    Delivery_Status := delivery_status r.Order_Status
    Fast_Delivery_Flag := fast_delivery_flag r.Delivery_Days }

/-- Models main.py 186: the reported count of rows whose date failed to
parse. -/
def invalid_date_count (rows : List RawRecord) : Nat :=
  (rows.filter (fun r => r.Order_Date.isNone)).length

/-- Models main.py 190 followed by 192-218: rows whose date did not parse
are dropped, and every surviving row is derived. -/
def derive_all (rows : List RawRecord) : List Record :=
  rows.filterMap (fun r => r.Order_Date.map (fun d => derive_record r d))

/-- Models the validation gate (main.py 176-180) followed by derivation:
a failed validation halts the pipeline, surfacing the message of
`validate_dataframe`, before any derivation happens. -/
def run_pipeline (columns : List String) (rows : List RawRecord) :
    Except String (List Record) :=
  let v := validate_dataframe columns
  if v.fst then Except.ok (derive_all rows) else Except.error v.snd

/-- Models main.py 237-253: the inclusive date-range filter followed by the
four facet filters, each applied only when its selection is non-empty. -/
def apply_filters (lo hi : Int)
    (city category status_sel value_sel : List String)
    (rows : List Record) : List Record :=
  let rows := rows.filter
    (fun r => decide (lo ≤ r.Order_Date) && decide (r.Order_Date ≤ hi))
  let rows := if city.isEmpty then rows
    else rows.filter (fun r => city.contains r.City)
  let rows := if category.isEmpty then rows
    else rows.filter (fun r => category.contains r.Product_Category)
  let rows := if status_sel.isEmpty then rows
    else rows.filter (fun r => status_sel.contains r.Order_Status)
  if value_sel.isEmpty then rows
  else rows.filter (fun r => value_sel.contains r.Order_Value_Category)

/-- The one-row predicate the filter chain of main.py 237-253 computes
(written in the association order the chain produces). -/
def passes_filters (lo hi : Int)
    (city category status_sel value_sel : List String)
    (r : Record) : Bool :=
  (value_sel.isEmpty || value_sel.contains r.Order_Value_Category)
    && ((status_sel.isEmpty || status_sel.contains r.Order_Status)
    && ((category.isEmpty || category.contains r.Product_Category)
    && ((city.isEmpty || city.contains r.City)
    && (decide (lo ≤ r.Order_Date) && decide (r.Order_Date ≤ hi)))))

/-- Mean of a list of cells, as pandas computes it: NaN (`none`) when the
list is empty (main.py wraps such means in `safe_calculation`). -/
def mean_opt (xs : List ℚ) : Option ℚ :=
  if xs.isEmpty then none else some (xs.sum / xs.length)

/-- Minimum of a list of cells; NaN (`none`) when the list is empty. -/
def min_opt (xs : List ℚ) : Option ℚ :=
  match xs with
  | [] => none
  | x :: t => some (t.foldl min x)

/-- Maximum of a list of cells; NaN (`none`) when the list is empty. -/
def max_opt (xs : List ℚ) : Option ℚ :=
  match xs with
  | [] => none
  | x :: t => some (t.foldl max x)

/-- Models main.py 267: sum of final sales amounts under `safe_calculation`. -/
def total_sales (rows : List Record) : ℚ :=
  safe_calculation (some ((rows.map (fun r => r.Final_Sales_Amount)).sum)) 0

/-- Models main.py 268: the record count. -/
def total_orders (rows : List Record) : Nat := rows.length

/-- Models main.py 269: sum of quantities under `safe_calculation`. -/
def total_items (rows : List Record) : ℚ :=
  safe_calculation (some ((rows.map (fun r => r.Quantity)).sum)) 0

/-- Models main.py 270: mean of final sales amounts under
`safe_calculation` (the pandas mean of an empty frame is NaN). -/
def avg_order (rows : List Record) : ℚ :=
  safe_calculation (mean_opt (rows.map (fun r => r.Final_Sales_Amount))) 0

/-- Models main.py 271: sum of discount amounts under `safe_calculation`. -/
def discount_given (rows : List Record) : ℚ :=
  safe_calculation (some ((rows.map (fun r => r.Discount_Amount)).sum)) 0

/-- Models main.py 272: the distinct cleaned customer names (pandas
`nunique`, which is 0 on an empty frame). -/
def customers_count (rows : List Record) : Nat :=
  (rows.map (fun r => r.Clean_Customer_Name)).dedup.length

/-- Models main.py 274: mean of the present delivery-day values under
`safe_calculation` (pandas skips NaN cells; the mean of none is NaN). -/
def avg_delivery_days (rows : List Record) : ℚ :=
  safe_calculation (mean_opt (rows.filterMap (fun r => r.Delivery_Days))) 0

/-- Models main.py 275: delivered share in percent under
`safe_calculation` (on an empty frame the division raises, hence `none`). -/
def conversion_rate (rows : List Record) : ℚ :=
  safe_calculation (if rows.isEmpty then none
    else some ((((rows.filter (fun r => r.Order_Status == "Delivered")).length : ℚ)) /
      ((rows.length : ℚ)) * 100)) 0

/-- Models main.py 276: returned share in percent under `safe_calculation`. -/
def return_rate (rows : List Record) : ℚ :=
  safe_calculation (if rows.isEmpty then none
    else some ((((rows.filter (fun r => r.Order_Status == "Returned")).length : ℚ)) /
      ((rows.length : ℚ)) * 100)) 0

/-- Modelled from the spec: a minimum statistic of the final sales amounts
under `safe_calculation` — the source computes no such KPI directly, but
the spec asserts the behaviour of min statistics under the same wrapper
(pandas min of an empty frame is NaN, mapped to the default 0). -/
def min_final_sales (rows : List Record) : ℚ :=
  safe_calculation (min_opt (rows.map (fun r => r.Final_Sales_Amount))) 0

/-- Modelled from the spec: a maximum statistic of the final sales amounts
under `safe_calculation`, as for `min_final_sales`. -/
def max_final_sales (rows : List Record) : ℚ :=
  safe_calculation (max_opt (rows.map (fun r => r.Final_Sales_Amount))) 0

/-- Ranking of the three value-category labels, used only to state that the
category is a monotone step function of the final amount. -/
def cat_rank (c : String) : Nat :=
  if c = "High Value" then 2 else if c = "Medium Value" then 1 else 0

/-- A concrete raw row with the given quantity, unit price and discount,
used to instantiate theorems at specific inputs. -/
def sample_row (q p disc : ℚ) : RawRecord :=
  { Order_Date := some 0, Customer_Name := "Ann", City := "Pune",
    Product_Category := "Tech", Product_Name := "Laptop",
    Quantity := some q, Unit_Price := some p,
    Discount_Percent := some disc, Order_Status := "Delivered",
    Delivery_Days := some 2 }

/-- A concrete raw row whose order date failed to parse. -/
def unparsed_date_row : RawRecord :=
  { sample_row 1 5 0 with Order_Date := none }

/-- A two-row upload in which exactly the first date failed to parse. -/
def mixed_date_rows : List RawRecord :=
  [unparsed_date_row, sample_row 1 5 0]

/-- A concrete raw row in which every numeric cell failed to parse. -/
def all_none_row : RawRecord :=
  { sample_row 0 0 0 with
    Quantity := none, Unit_Price := none, Discount_Percent := none }

theorem cond_filter {α : Type} (b : Bool) (p : α → Bool) (l : List α) :
    (if b = true then l else l.filter p) =
      l.filter (fun a => b || p a) := by
  cases b <;> simp

theorem apply_filters_eq_filter (lo hi : Int)
    (city category status_sel value_sel : List String)
    (rows : List Record) :
    apply_filters lo hi city category status_sel value_sel rows =
      rows.filter (passes_filters lo hi city category status_sel value_sel) := by
  unfold apply_filters
  rw [cond_filter, cond_filter, cond_filter, cond_filter]
  simp only [List.filter_filter]
  rfl

theorem derive_record_category (r : RawRecord) (d : Int) :
    (derive_record r d).Order_Value_Category =
      order_value_category (derive_record r d).Final_Sales_Amount := rfl

theorem derive_record_flag (r : RawRecord) (d : Int) :
    (derive_record r d).Fast_Delivery_Flag =
      fast_delivery_flag r.Delivery_Days := rfl

theorem clip_nonneg (x : ℚ) : 0 ≤ clip x 0 100 :=
  le_min (le_max_right _ _) (by norm_num)

theorem clip_le (x : ℚ) : clip x 0 100 ≤ 100 := min_le_right _ _

theorem order_value_category_spec (x : ℚ) :
    (order_value_category x = "High Value" ↔ 30000 ≤ x)
    ∧ (order_value_category x = "Medium Value" ↔ 10000 ≤ x ∧ x < 30000)
    ∧ (order_value_category x = "Low Value" ↔ x < 10000) := by
  unfold order_value_category
  by_cases h1 : 30000 ≤ x <;> by_cases h2 : 10000 ≤ x <;>
    simp [h1, h2] <;> linarith

theorem order_value_category_mono {x y : ℚ} (h : x ≤ y) :
    cat_rank (order_value_category x) ≤ cat_rank (order_value_category y) := by
  unfold order_value_category cat_rank
  by_cases h1 : 30000 ≤ x <;> by_cases h2 : 10000 ≤ x <;>
    by_cases h3 : 30000 ≤ y <;> by_cases h4 : 10000 ≤ y <;>
    simp [h1, h2, h3, h4] <;> linarith

/-- Claim C1, amended: for every derived record,
final = quantity × price × (1 − clamped discount / 100), and whenever the
pre-discount total is nonnegative the discount never raises the amount,
so final ≤ total.  (As originally stated the inequality also covered
records with a negative coerced total, where it fails.) -/
theorem C1_final_sales_amount (r : RawRecord) (d : Int) :
    (derive_record r d).Final_Sales_Amount =
      coerce_numeric r.Quantity * coerce_numeric r.Unit_Price *
        (1 - clip (coerce_numeric r.Discount_Percent) 0 100 / 100)
    ∧ (0 ≤ (derive_record r d).Total_Amount →
        (derive_record r d).Final_Sales_Amount ≤
          (derive_record r d).Total_Amount) := by
  constructor
  · show coerce_numeric r.Quantity * coerce_numeric r.Unit_Price -
        coerce_numeric r.Quantity * coerce_numeric r.Unit_Price *
          clip (coerce_numeric r.Discount_Percent) 0 100 / 100 = _
    ring
  · intro h
    exact sub_le_self _
      (div_nonneg (mul_nonneg h (clip_nonneg _)) (by norm_num))

/-- Claim C1, counterexample: when the coerced quantity is negative
(quantity −1 at unit price 10 with a 50% discount) the discount raises
the amount, so the claimed final ≤ total fails. -/
theorem C1_counterexample :
    ¬ ((derive_record (sample_row (-1) 10 50) 0).Final_Sales_Amount ≤
        (derive_record (sample_row (-1) 10 50) 0).Total_Amount) := by
  norm_num [derive_record, sample_row, coerce_numeric, clip]

/-- Witness for C1 at quantity 2, unit price 100, discount 10%. -/
theorem C1_witness :
    0 ≤ (derive_record (sample_row 2 100 10) 0).Total_Amount ∧
    (derive_record (sample_row 2 100 10) 0).Final_Sales_Amount ≤
      (derive_record (sample_row 2 100 10) 0).Total_Amount :=
  ⟨by norm_num [derive_record, sample_row, coerce_numeric, clip],
    (C1_final_sales_amount (sample_row 2 100 10) 0).2
      (by norm_num [derive_record, sample_row, coerce_numeric, clip])⟩

/-- Claim C2, amended: rows whose date fails to parse are counted for the
warning, and are then dropped from the record set entirely — the retained
records are exactly the derivations of the rows whose date parsed, so the
dropped rows are excluded from every aggregate, non-temporal ones
included, and the retained record count plus the reported invalid count
equals the input count. -/
theorem C2_unparseable_dates_dropped (rows : List RawRecord) :
    invalid_date_count rows + total_orders (derive_all rows) = rows.length
    ∧ derive_all rows =
        derive_all (rows.filter (fun r => r.Order_Date.isSome)) := by
  constructor
  · induction rows with
    | nil => rfl
    | cons r t ih =>
      cases h : r.Order_Date <;>
        simp [invalid_date_count, derive_all, total_orders, h,
          List.filter_cons] at ih ⊢ <;>
        omega
  · induction rows with
    | nil => rfl
    | cons r t ih =>
      cases h : r.Order_Date <;>
        simp [derive_all, h, List.filter_cons] at ih ⊢ <;>
        exact ih

/-- Claim C2, counterexample: on an upload of two rows of which one has an
unparseable date, the invalid count 1 is surfaced, but the record set then
holds only 1 record, so the non-temporal order count does not retain the
unparseable row as the claim states. -/
theorem C2_counterexample :
    invalid_date_count mixed_date_rows = 1 ∧
    ¬ total_orders (derive_all mixed_date_rows) = mixed_date_rows.length := by
  constructor
  · rfl
  · decide

/-- Claim C3: the value category of every derived record is determined by
its final sales amount alone via inclusive lower bounds at 10000 and
30000, each record getting exactly the one matching label of the three,
and the label rank is monotone in the final amount. -/
theorem C3_order_value_category (r1 : RawRecord) (d1 : Int)
    (r2 : RawRecord) (d2 : Int) :
    ((derive_record r1 d1).Order_Value_Category = "High Value" ↔
      30000 ≤ (derive_record r1 d1).Final_Sales_Amount)
    ∧ ((derive_record r1 d1).Order_Value_Category = "Medium Value" ↔
      10000 ≤ (derive_record r1 d1).Final_Sales_Amount ∧
        (derive_record r1 d1).Final_Sales_Amount < 30000)
    ∧ ((derive_record r1 d1).Order_Value_Category = "Low Value" ↔
      (derive_record r1 d1).Final_Sales_Amount < 10000)
    ∧ ((derive_record r1 d1).Final_Sales_Amount ≤
        (derive_record r2 d2).Final_Sales_Amount →
      cat_rank (derive_record r1 d1).Order_Value_Category ≤
        cat_rank (derive_record r2 d2).Order_Value_Category) := by
  rw [derive_record_category, derive_record_category]
  exact ⟨(order_value_category_spec _).1, (order_value_category_spec _).2.1,
    (order_value_category_spec _).2.2, fun h => order_value_category_mono h⟩

/-- Witness for C3 at final amounts 5000 and 20000. -/
theorem C3_witness :
    (derive_record (sample_row 1 5000 0) 0).Final_Sales_Amount ≤
      (derive_record (sample_row 1 20000 0) 0).Final_Sales_Amount ∧
    cat_rank (derive_record (sample_row 1 5000 0) 0).Order_Value_Category ≤
      cat_rank (derive_record (sample_row 1 20000 0) 0).Order_Value_Category :=
  ⟨by norm_num [derive_record, sample_row, coerce_numeric, clip],
    (C3_order_value_category (sample_row 1 5000 0) 0
      (sample_row 1 20000 0) 0).2.2.2
      (by norm_num [derive_record, sample_row, coerce_numeric, clip])⟩

/-- Claim C4: the fast-delivery flag of every derived record takes exactly
one of the three values NA, Fast Delivery, Normal Delivery; it is NA iff
the delivery days are missing, Fast Delivery iff present and at most 3,
and Normal Delivery iff present and greater than 3. -/
theorem C4_fast_delivery_flag (r : RawRecord) (d : Int) :
    ((derive_record r d).Fast_Delivery_Flag = "NA" ∨
      (derive_record r d).Fast_Delivery_Flag = "Fast Delivery" ∨
      (derive_record r d).Fast_Delivery_Flag = "Normal Delivery")
    ∧ ((derive_record r d).Fast_Delivery_Flag = "NA" ↔
      r.Delivery_Days = none)
    ∧ ((derive_record r d).Fast_Delivery_Flag = "Fast Delivery" ↔
      ∃ dd, r.Delivery_Days = some dd ∧ dd ≤ 3)
    ∧ ((derive_record r d).Fast_Delivery_Flag = "Normal Delivery" ↔
      ∃ dd, r.Delivery_Days = some dd ∧ 3 < dd) := by
  rw [derive_record_flag]
  cases h : r.Delivery_Days with
  | none => simp [fast_delivery_flag]
  | some dd =>
    by_cases h3 : dd ≤ 3 <;> simp [fast_delivery_flag, h3]
    linarith

theorem missing_cols_mem (columns : List String) (c : String) :
    c ∈ missing_cols columns ↔ c ∈ required_cols ∧ c ∉ columns := by
  simp [missing_cols, List.mem_filter]

theorem missing_cols_nil (columns : List String) :
    missing_cols columns = [] ↔ ∀ c ∈ required_cols, c ∈ columns := by
  rw [List.eq_nil_iff_forall_not_mem]
  constructor
  · intro h c hc
    by_contra hn
    exact h c ((missing_cols_mem columns c).2 ⟨hc, hn⟩)
  · intro h c hc
    rcases (missing_cols_mem columns c).1 hc with ⟨h1, h2⟩
    exact h2 (h c h1)

/-- Claim C5: validation succeeds iff all ten required columns are
present; on failure the missing-column list is complete (every absent
required column, not just the first) and the pipeline halts with the
message naming that list before any derivation; on success the pipeline
proceeds to derivation. -/
theorem C5_validation (columns : List String) (rows : List RawRecord) :
    ((validate_dataframe columns).fst = true ↔
      ∀ c ∈ required_cols, c ∈ columns)
    ∧ (∀ c, c ∈ missing_cols columns ↔ c ∈ required_cols ∧ c ∉ columns)
    ∧ (missing_cols columns ≠ [] →
      run_pipeline columns rows = Except.error
        ("Missing required columns: " ++
          String.intercalate ", " (missing_cols columns)))
    ∧ (missing_cols columns = [] →
      run_pipeline columns rows = Except.ok (derive_all rows)) := by
  refine ⟨?_, missing_cols_mem columns, ?_, ?_⟩
  · rw [← missing_cols_nil]
    unfold validate_dataframe
    by_cases hm : (missing_cols columns).isEmpty <;>
      simp [hm, ← List.isEmpty_iff]
  · intro hne
    have hm : (missing_cols columns).isEmpty = false := by
      simpa [List.isEmpty_iff] using hne
    simp [run_pipeline, validate_dataframe, hm]
  · intro hnil
    have hm : (missing_cols columns).isEmpty = true := by
      simp [List.isEmpty_iff, hnil]
    simp [run_pipeline, validate_dataframe, hm]

/-- Witness for C5: a frame with only two of the required columns fails
with the complete missing list, and a frame with all ten succeeds. -/
theorem C5_witness :
    missing_cols ["Order_Date", "City"] ≠ [] ∧
    run_pipeline ["Order_Date", "City"] [] = Except.error
      ("Missing required columns: " ++
        String.intercalate ", " (missing_cols ["Order_Date", "City"])) ∧
    missing_cols required_cols = [] ∧
    run_pipeline required_cols [] = Except.ok (derive_all []) :=
  ⟨by decide, (C5_validation ["Order_Date", "City"] []).2.2.1 (by decide),
    by decide, (C5_validation required_cols []).2.2.2 (by decide)⟩

/-- Claim C6: a record is returned by the filter iff it is an input
record whose order date lies in the inclusive range and which passes the
membership test of every facet with a non-empty selection (selections
within a facet OR'd, across facets AND'd); an empty selection imposes no
constraint, so with no facet selections and a range covering every
record the output count equals the input count. -/
theorem C6_filter_characterization (lo hi : Int)
    (city category status_sel value_sel : List String)
    (rows : List Record) :
    (∀ r, r ∈ apply_filters lo hi city category status_sel value_sel rows ↔
      r ∈ rows ∧ (lo ≤ r.Order_Date ∧ r.Order_Date ≤ hi)
        ∧ (city ≠ [] → r.City ∈ city)
        ∧ (category ≠ [] → r.Product_Category ∈ category)
        ∧ (status_sel ≠ [] → r.Order_Status ∈ status_sel)
        ∧ (value_sel ≠ [] → r.Order_Value_Category ∈ value_sel))
    ∧ (city = [] → category = [] → status_sel = [] → value_sel = [] →
      (∀ r ∈ rows, lo ≤ r.Order_Date ∧ r.Order_Date ≤ hi) →
      (apply_filters lo hi city category status_sel value_sel rows).length =
        rows.length) := by
  constructor
  · intro r
    rw [apply_filters_eq_filter, List.mem_filter]
    unfold passes_filters
    simp only [Bool.and_eq_true, Bool.or_eq_true, List.isEmpty_iff,
      decide_eq_true_iff, List.contains, List.elem_eq_mem]
    tauto
  · intro h1 h2 h3 h4 hall
    subst h1; subst h2; subst h3; subst h4
    rw [apply_filters_eq_filter, List.filter_eq_self.2]
    intro a ha
    simp only [passes_filters, List.isEmpty_nil, Bool.true_or,
      Bool.true_and, Bool.and_eq_true, decide_eq_true_iff]
    exact hall a ha

/-- Witness for C6: one in-range record, no facet selections. -/
theorem C6_witness :
    (∀ r ∈ [derive_record (sample_row 1 5 0) 3],
      (0:Int) ≤ r.Order_Date ∧ r.Order_Date ≤ 10) ∧
    (apply_filters 0 10 [] [] [] []
        [derive_record (sample_row 1 5 0) 3]).length =
      [derive_record (sample_row 1 5 0) 3].length :=
  ⟨by intro r hr; rw [List.mem_singleton] at hr; subst hr;
      exact ⟨by decide, by decide⟩,
    (C6_filter_characterization 0 10 [] [] [] []
        [derive_record (sample_row 1 5 0) 3]).2 rfl rfl rfl rfl
      (by intro r hr; rw [List.mem_singleton] at hr; subst hr;
          exact ⟨by decide, by decide⟩)⟩

/-- Claim C7: every KPI aggregate applied to the empty record set returns
its defined default 0 instead of failing on division by zero or an
undefined mean, min or max. -/
theorem C7_empty_aggregates :
    total_sales [] = 0 ∧ total_orders ([] : List Record) = 0
    ∧ total_items [] = 0 ∧ avg_order [] = 0 ∧ discount_given [] = 0
    ∧ customers_count [] = 0 ∧ avg_delivery_days [] = 0
    ∧ conversion_rate [] = 0 ∧ return_rate [] = 0
    ∧ min_final_sales [] = 0 ∧ max_final_sales [] = 0 := by
  refine ⟨rfl, rfl, rfl, rfl, rfl, ?_, rfl, rfl, rfl, rfl, rfl⟩
  simp [customers_count]

/-- Claim C8: an unparseable numeric cell is silently coerced to 0, and
the discount every downstream derivation sees is the clamped coercion,
always within [0, 100]. -/
theorem C8_numeric_coercion (r : RawRecord) (d : Int) :
    coerce_numeric none = 0
    ∧ (r.Quantity = none → (derive_record r d).Quantity = 0)
    ∧ (r.Unit_Price = none → (derive_record r d).Unit_Price = 0)
    ∧ (r.Discount_Percent = none → (derive_record r d).Discount_Percent = 0)
    ∧ (derive_record r d).Discount_Percent =
        clip (coerce_numeric r.Discount_Percent) 0 100
    ∧ 0 ≤ (derive_record r d).Discount_Percent
    ∧ (derive_record r d).Discount_Percent ≤ 100 := by
  refine ⟨rfl, ?_, ?_, ?_, rfl, clip_nonneg _, clip_le _⟩
  · intro h
    show coerce_numeric r.Quantity = 0
    rw [h]; rfl
  · intro h
    show coerce_numeric r.Unit_Price = 0
    rw [h]; rfl
  · intro h
    show clip (coerce_numeric r.Discount_Percent) 0 100 = 0
    rw [h]
    norm_num [coerce_numeric, clip]

/-- Witness for C8: a row in which every numeric cell failed to parse. -/
theorem C8_witness :
    (derive_record all_none_row 0).Quantity = 0 ∧
    (derive_record all_none_row 0).Unit_Price = 0 ∧
    (derive_record all_none_row 0).Discount_Percent = 0 :=
  ⟨(C8_numeric_coercion all_none_row 0).2.1 rfl,
    (C8_numeric_coercion all_none_row 0).2.2.1 rfl,
    (C8_numeric_coercion all_none_row 0).2.2.2.1 rfl⟩

/-- Claim C9: applying the same filter twice yields the same record set
as applying it once. -/
theorem C9_filter_idempotent (lo hi : Int)
    (city category status_sel value_sel : List String)
    (rows : List Record) :
    apply_filters lo hi city category status_sel value_sel
        (apply_filters lo hi city category status_sel value_sel rows) =
      apply_filters lo hi city category status_sel value_sel rows := by
  simp only [apply_filters_eq_filter, List.filter_filter, Bool.and_self]

/-- Claim C10: the growth-rate computation is total and division-safe —
a zero or missing previous value, or a missing current value, yields 0,
and otherwise the percentage-change formula is returned. -/
theorem C10_growth_rate (current previous : Option ℚ) :
    ((previous = some 0 ∨ previous = none ∨ current = none) →
      calculate_growth_rate current previous = 0)
    ∧ (∀ c p, current = some c → previous = some p → p ≠ 0 →
      calculate_growth_rate current previous = (c - p) / p * 100) := by
  constructor
  · rintro (h | h | h) <;> subst h
    · cases current <;> simp [calculate_growth_rate]
    · cases current <;> simp [calculate_growth_rate]
    · cases previous <;> simp [calculate_growth_rate]
  · intro c p hc hp hps
    subst hc; subst hp
    simp [calculate_growth_rate, hps]

/-- Witness for C10 at (5, 0) and (110, 100). -/
theorem C10_witness :
    calculate_growth_rate (some 5) (some 0) = 0 ∧
    calculate_growth_rate (some 110) (some 100) = (110 - 100) / 100 * 100 :=
  ⟨(C10_growth_rate (some 5) (some 0)).1 (Or.inl rfl),
    (C10_growth_rate (some 110) (some 100)).2 110 100 rfl rfl (by norm_num)⟩

end SalesDashboard
